import Mathlib

/-!
Verification of the session/authentication core of the autoglue-ui repository.

The embedded code:
* `src/src/lib/api.ts` — the axios instance with its request interceptor
  (credential attachment) and response interceptor (401-driven token refresh
  with queueing of concurrent failures), together with the module-level
  mutable state `isRefreshing` / `failedQueue` and the helper `processQueue`.
* `AuthProvider.login` (unnamed part_000) — persists the tokens returned by
  the login endpoint with `JSON.stringify`.
* `handleSelectOrg` / `handleDeleteOrg` (unnamed part_002) and `removeMember`
  (unnamed part_003) — the organization / member list handlers touching
  `active_org_id` and the displayed lists.

JavaScript strings are Lean `String`s; a `localStorage` slot is an
`Option String` (`none` = `getItem` returned `null`).  The single-threaded
event loop is modelled by a step function on an explicit coordinator state:
each step is one synchronous run-to-completion segment of the interceptor
(the segment before the awaited refresh call, and the segment after it).
-/

namespace AutoglueUI

/-- The durable browser storage slots used by the session manager
(`localStorage` keys `access_token`, `refresh_token`, `active_org_id`). -/
structure Storage where
  access_token : Option String
  refresh_token : Option String
  active_org_id : Option String
  deriving Repr, DecidableEq

/-- JavaScript truthiness of a `string | null` value: `null` and the empty
string are falsy, every other string is truthy. -/
def truthy : Option String → Bool
  | none => false
  | some s => s ≠ ""

/-- `s.replace(/^"|"$/g, "")` from the request interceptor: removes one
leading double-quote character (if present) and one trailing double-quote
character (if present). -/
def stripQuotes (s : String) : String :=
  let l : List Char :=
    match s.data with
    | '"' :: rest => rest
    | l => l
  if l.getLast? = some '"' then ⟨l.dropLast⟩ else ⟨l⟩

/-- The part of an axios request config the interceptors read or write:
the `Authorization` header, the `X-Org-ID` header, and the `_retry` marker
(absent on a fresh request, modelled as `false`). -/
structure Config where
  authorization : Option String
  xOrgId : Option String
  retry : Bool
  deriving Repr, DecidableEq

/-- The request interceptor of `api.ts` (lines 30–43): reads both storage
slots, strips incidental surrounding quotes, attaches
`Authorization: Bearer <token>` when the stripped token is truthy and not the
literal string `"undefined"`, and attaches `X-Org-ID` when the stripped
organization id is truthy. -/
def requestInterceptor (store : Storage) (config : Config) : Config :=
  let token := store.access_token.map stripQuotes
  let orgId := store.active_org_id.map stripQuotes
  let c1 :=
    match token with
    | some t =>
        if t ≠ "" ∧ t ≠ "undefined" then
          { config with authorization := some ("Bearer " ++ t) }
        else config
    | none => config
  match orgId with
  | some o => if o ≠ "" then { c1 with xOrgId := some o } else c1
  | none => c1

/-- A lowercase hexadecimal digit, as `JSON.stringify` emits in `\u00XX`
escapes. -/
def hexDigit (n : Nat) : Char :=
  if n < 10 then Char.ofNat (48 + n) else Char.ofNat (87 + n)

/-- The escape of one character inside a JSON string literal, as
`JSON.stringify` produces it: quote and backslash are backslash-escaped, the
control characters with short escapes use them, the remaining control
characters get a `\u00XX` escape, and every other character stands for
itself. -/
def jsonEscapeChar (c : Char) : List Char :=
  if c = '"' then ['\\', '"']
  else if c = '\\' then ['\\', '\\']
  else if c = '\x08' then ['\\', 'b']
  else if c = '\x0c' then ['\\', 'f']
  else if c = '\n' then ['\\', 'n']
  else if c = '\r' then ['\\', 'r']
  else if c = '\t' then ['\\', 't']
  else if c.toNat < 32 then
    ['\\', 'u', '0', '0', hexDigit (c.toNat / 16), hexDigit (c.toNat % 16)]
  else [c]

/-- `JSON.stringify` on a string value: the escaped characters wrapped in
double quotes.  `AuthProvider.login` (part_000, lines 27–41) stores
`JSON.stringify(access_token)` under the `access_token` key. -/
def jsonStringify (s : String) : String :=
  "\"" ++ String.mk (s.data.flatMap jsonEscapeChar) ++ "\""

/-- The storage write performed by `AuthProvider.login` on a successful
login response carrying `access_token` and `refresh_token`. -/
def loginStore (store : Storage) (accessToken refreshToken : String) : Storage :=
  { store with
      access_token := some (jsonStringify accessToken)
      refresh_token := some (jsonStringify refreshToken) }

/-- An HTTP error as delivered to the response interceptor's rejection
handler: the optional response status (`error.response?.status`) and the
request config it carries (`error.config`). -/
structure HttpError where
  status : Option Nat
  config : Config
  deriving Repr, DecidableEq

/-- The observable state of the refresh coordinator: the module-level
mutables of `api.ts` (`isRefreshing`, `failedQueue`), the browser storage,
the axios client-wide default `Authorization` header
(`api.defaults.headers.Authorization`), the value last assigned to
`window.location.href` (if any), and three observation logs: how many times
the refresh endpoint was called, which request configs were replayed through
`api(...)` (in call order), and which queued continuations were rejected
with which refresh error (in call order, errors as opaque ids). -/
structure CoordState where
  isRefreshing : Bool
  failedQueue : List Config
  store : Storage
  defaultAuthorization : Option String
  locationHref : Option String
  refreshCalls : Nat
  replayed : List Config
  rejectedQueued : List (Config × Nat)
  deriving Repr, DecidableEq

/-- What the synchronous part of the response error handler returns:
a promise parked on `failedQueue`, the start of a refresh call whose
continuation will receive the marked original request, or an immediate
`Promise.reject(error)` passing the error through unchanged. -/
inductive HandlerResult where
  | queued : HandlerResult
  | refreshStarted : Config → HandlerResult
  | rejected : HttpError → HandlerResult
  deriving Repr, DecidableEq

/-- The synchronous prefix of the response interceptor's error handler
(`api.ts` lines 48–70 and 100): on a 401 whose request is not yet marked
`_retry` and with a truthy stored refresh token, mark the request, then
either park it on `failedQueue` (when a refresh is already in flight) or
flip `isRefreshing` and issue the refresh call; every other error is
rejected to the caller unchanged.  Execution is atomic up to the first
`await`, which is the refresh call itself. -/
def handleError (s : CoordState) (e : HttpError) : CoordState × HandlerResult :=
  if e.status = some 401 ∧ e.config.retry = false ∧ truthy s.store.refresh_token = true then
    let orig : Config := { e.config with retry := true }
    if s.isRefreshing then
      ({ s with failedQueue := s.failedQueue ++ [orig] }, .queued)
    else
      ({ s with isRefreshing := true, refreshCalls := s.refreshCalls + 1 },
       .refreshStarted orig)
  else
    (s, .rejected e)

/-- `processQueue` (`api.ts` lines 11–21) composed with the continuations the
interceptor pushes onto `failedQueue`: on success each parked continuation
sets its request's `Authorization` header to the new token and replays it
through `api(...)`, in queue order; on failure each parked continuation is
rejected with the refresh error; in both cases the queue is then emptied. -/
def processQueue (s : CoordState) (res : Except Nat String) : CoordState :=
  match res with
  | .ok token =>
      { s with
          replayed := s.replayed ++
            s.failedQueue.map
              (fun c => { c with authorization := some ("Bearer " ++ token) })
          failedQueue := [] }
  | .error err =>
      { s with
          rejectedQueued := s.rejectedQueued ++ s.failedQueue.map (fun c => (c, err))
          failedQueue := [] }

/-- How the response interceptor settles a refresh episode for its original
caller: the original request is replayed with its final config, or the
caller's promise is rejected with the refresh error. -/
inductive SettleResult where
  | replayedOriginal : Config → SettleResult
  | rejectedRefreshError : Nat → SettleResult
  deriving Repr, DecidableEq

/-- The continuation of the error handler after the awaited refresh call
settles (`api.ts` lines 72–98).  Success (`.ok token`): persist the new
access token, update the client-wide default `Authorization` header, resolve
the queue with the token, replay the original request with the new token.
Failure (`.error err`): reject the queue with the error, remove both tokens
from storage, navigate to `/`, reject the original caller.  The `finally`
block resets `isRefreshing` in both cases. -/
def settleRefresh (s : CoordState) (orig : Config) (res : Except Nat String) :
    CoordState × SettleResult :=
  match res with
  | .ok newAccessToken =>
      let s1 := { s with
          store := { s.store with access_token := some newAccessToken }
          defaultAuthorization := some ("Bearer " ++ newAccessToken) }
      let s2 := processQueue s1 (.ok newAccessToken)
      let orig1 : Config := { orig with authorization := some ("Bearer " ++ newAccessToken) }
      ({ s2 with replayed := s2.replayed ++ [orig1], isRefreshing := false },
       .replayedOriginal orig1)
  | .error refreshError =>
      let s1 := processQueue s (.error refreshError)
      ({ s1 with
          store := { s1.store with access_token := none, refresh_token := none }
          locationHref := some "/"
          isRefreshing := false },
       .rejectedRefreshError refreshError)

/-- One run-to-completion segment of the event loop touching the
coordinator: either the synchronous error-handler prefix for some failed
response, or the continuation after the in-flight refresh call settles. -/
inductive Event where
  | fail : HttpError → Event
  | settle : Config → Except Nat String → Event
  deriving Repr

/-- The coordinator's state transition for one event. -/
def step (s : CoordState) (ev : Event) : CoordState :=
  match ev with
  | .fail e => (handleError s e).1
  | .settle orig res => (settleRefresh s orig res).1

/-- Folding the synchronous error-handler prefix over a list of failures
that all land in the same tick window (no refresh settlement in between). -/
def runFails (s : CoordState) (es : List HttpError) : CoordState :=
  es.foldl (fun st e => (handleError st e).1) s

/-- The displayed-organization type of the setup page (part_002). -/
structure Organization where
  id : String
  name : String
  slug : String
  created_at : String
  deriving Repr, DecidableEq

/-- A member row of the member-management page (part_003). -/
structure Member where
  user_id : String
  email : String
  role : String
  deriving Repr, DecidableEq

/-- The list update of `handleDeleteOrg` (part_002, line 172):
`setOrganizations((prev) => prev.filter((org) => org.id !== org.id))`.
The filter's parameter `org` shadows the deleted organization, reproduced
here verbatim by the inner binder. -/
def handleDeleteOrgFilter (org : Organization) (prev : List Organization) :
    List Organization :=
  prev.filter (fun org => org.id != org.id)

/-- The list update of `removeMember` (part_003, lines 21–25):
`setMembers((prev) => prev.filter((m) => m.user_id !== userId))`. -/
def removeMemberFilter (userId : String) (prev : List Member) : List Member :=
  prev.filter (fun m => m.user_id != userId)

/-- `handleSelectOrg` (part_002, lines 162–166):
`localStorage.setItem("active_org_id", org.id)`. -/
def handleSelectOrg (store : Storage) (org : Organization) : Storage :=
  { store with active_org_id := some org.id }

/-! ### Helper lemmas -/

/-- The synchronous error-handler prefix never touches browser storage. -/
theorem handleError_store (s : CoordState) (e : HttpError) :
    (handleError s e).1.store = s.store := by
  unfold handleError
  split <;> (try split) <;> rfl

/-- While a refresh is in flight, the synchronous error-handler prefix keeps
the flag set and never issues another refresh call, whatever the error. -/
theorem handleError_refreshing_preserved (s : CoordState) (e : HttpError)
    (h : s.isRefreshing = true) :
    (handleError s e).1.isRefreshing = true ∧
    (handleError s e).1.refreshCalls = s.refreshCalls := by
  unfold handleError
  split <;> exact ⟨h, rfl⟩

/-- Folding any same-tick batch of failures over a state with a refresh in
flight keeps the flag set and the refresh-call count unchanged. -/
theorem runFails_refreshing_preserved (es : List HttpError) :
    ∀ s : CoordState, s.isRefreshing = true →
    (runFails s es).isRefreshing = true ∧
    (runFails s es).refreshCalls = s.refreshCalls := by
  induction es with
  | nil => exact fun s h => ⟨h, rfl⟩
  | cons e rest ih =>
      intro s h
      have h1 := handleError_refreshing_preserved s e h
      have h2 := ih (handleError s e).1 h1.1
      exact ⟨h2.1, by rw [runFails] at h2 ⊢; simp only [List.foldl]; rw [h2.2, h1.2]⟩

/-- Stripping the incidental quotes recovers exactly the quote-wrapped
string. -/
theorem stripQuotes_quoteWrap (tok : String) :
    stripQuotes ("\"" ++ tok ++ "\"") = tok := by
  have hdata : ("\"" ++ tok ++ "\"").data = '"' :: (tok.data ++ ['"']) := by
    simp [String.data_append]
  simp only [stripQuotes, hdata]
  simp [List.getLast?_concat, List.dropLast_concat]

/-- A character that is not a quote, not a backslash and not a control
character is its own JSON escape. -/
theorem jsonEscapeChar_plain (c : Char) (h1 : c ≠ '"') (h2 : c ≠ '\\')
    (h3 : ¬c.toNat < 32) : jsonEscapeChar c = [c] := by
  have h8 : c ≠ '\x08' := by rintro rfl; exact h3 (by decide)
  have hf : c ≠ '\x0c' := by rintro rfl; exact h3 (by decide)
  have hn : c ≠ '\n' := by rintro rfl; exact h3 (by decide)
  have hr : c ≠ '\r' := by rintro rfl; exact h3 (by decide)
  have ht : c ≠ '\t' := by rintro rfl; exact h3 (by decide)
  simp [jsonEscapeChar, h1, h2, h3, h8, hf, hn, hr, ht]

/-- On a list of characters needing no JSON escape, the escaping is the
identity. -/
theorem bind_jsonEscapeChar_plain (l : List Char)
    (h : ∀ c ∈ l, c ≠ '"' ∧ c ≠ '\\' ∧ ¬c.toNat < 32) :
    l.flatMap jsonEscapeChar = l := by
  induction l with
  | nil => rfl
  | cons c rest ih =>
      have hc := h c (List.mem_cons_self c rest)
      rw [List.flatMap_cons, jsonEscapeChar_plain c hc.1 hc.2.1 hc.2.2,
        ih (fun x hx => h x (List.mem_cons_of_mem c hx))]
      rfl

/-- On a string needing no JSON escape, `JSON.stringify` only wraps it in
double quotes. -/
theorem jsonStringify_plain (s : String)
    (h : ∀ c ∈ s.data, c ≠ '"' ∧ c ≠ '\\' ∧ ¬c.toNat < 32) :
    jsonStringify s = "\"" ++ s ++ "\"" := by
  unfold jsonStringify
  rw [bind_jsonEscapeChar_plain s.data h]

/-- Stripping the incidental quotes recovers exactly the string that
`JSON.stringify` wrapped, provided it needed no JSON escape. -/
theorem stripQuotes_jsonStringify_plain (tok : String)
    (h : ∀ c ∈ tok.data, c ≠ '"' ∧ c ≠ '\\' ∧ ¬c.toNat < 32) :
    stripQuotes (jsonStringify tok) = tok := by
  rw [jsonStringify_plain tok h, stripQuotes_quoteWrap]

/-- The `X-Org-ID` branch of the request interceptor never changes the
`Authorization` header computed by the token branch. -/
theorem requestInterceptor_authorization (store : Storage) (config : Config) :
    (requestInterceptor store config).authorization =
      (match store.access_token.map stripQuotes with
       | some t =>
           if t ≠ "" ∧ t ≠ "undefined" then some ("Bearer " ++ t)
           else config.authorization
       | none => config.authorization) := by
  unfold requestInterceptor
  cases store.access_token.map stripQuotes with
  | none =>
      cases store.active_org_id.map stripQuotes with
      | none => rfl
      | some o => by_cases ho : o = "" <;> simp [ho]
  | some t =>
      by_cases ht : t ≠ "" ∧ t ≠ "undefined" <;>
        cases store.active_org_id.map stripQuotes with
        | none => simp [ht]
        | some o => by_cases ho : o = "" <;> simp [ht, ho]

/-- When the recoverable-401 condition does not hold, the error handler is
an identity on the state and passes the error through. -/
theorem handleError_passthrough (s : CoordState) (e : HttpError)
    (h : ¬(e.status = some 401 ∧ e.config.retry = false ∧
           truthy s.store.refresh_token = true)) :
    handleError s e = (s, .rejected e) := by
  unfold handleError
  rw [if_neg h]

/-- The `X-Org-ID` header computed by the request interceptor, independent
of the token branch. -/
theorem requestInterceptor_xOrgId (store : Storage) (config : Config) :
    (requestInterceptor store config).xOrgId =
      (match store.active_org_id.map stripQuotes with
       | some o => if o ≠ "" then some o else config.xOrgId
       | none => config.xOrgId) := by
  unfold requestInterceptor
  cases store.access_token.map stripQuotes with
  | none =>
      cases store.active_org_id.map stripQuotes with
      | none => rfl
      | some o => by_cases ho : o = "" <;> simp [ho]
  | some t =>
      by_cases ht : t ≠ "" ∧ t ≠ "undefined" <;>
        cases store.active_org_id.map stripQuotes with
        | none => simp [ht]
        | some o => by_cases ho : o = "" <;> simp [ht, ho]

/-! ### Claim theorems -/

/-- C3: on refresh success the coordinator persists the new access token
under the access-token key, updates the client-wide default `Authorization`
header, resolves every queued continuation (each replaying its own original
request with the new bearer token, in queue order), and replays the original
failing request with the new token. -/
theorem refresh_success_settlement (s : CoordState) (orig : Config) (token : String) :
    (settleRefresh s orig (.ok token)).1.store.access_token = some token ∧
    (settleRefresh s orig (.ok token)).1.defaultAuthorization =
      some ("Bearer " ++ token) ∧
    (settleRefresh s orig (.ok token)).1.replayed =
      s.replayed ++
        s.failedQueue.map (fun c => { c with authorization := some ("Bearer " ++ token) }) ++
        [{ orig with authorization := some ("Bearer " ++ token) }] ∧
    (settleRefresh s orig (.ok token)).2 =
      .replayedOriginal { orig with authorization := some ("Bearer " ++ token) } :=
  ⟨rfl, rfl, rfl, rfl⟩

/-- C4: on refresh failure the coordinator rejects every queued continuation
with the refresh error, removes both tokens from durable storage, navigates
the browser to `/`, and rejects the original caller's promise with the
refresh error. -/
theorem refresh_failure_settlement (s : CoordState) (orig : Config) (err : Nat) :
    (settleRefresh s orig (.error err)).1.rejectedQueued =
      s.rejectedQueued ++ s.failedQueue.map (fun c => (c, err)) ∧
    (settleRefresh s orig (.error err)).1.store.access_token = none ∧
    (settleRefresh s orig (.error err)).1.store.refresh_token = none ∧
    (settleRefresh s orig (.error err)).1.locationHref = some "/" ∧
    (settleRefresh s orig (.error err)).2 = .rejectedRefreshError err :=
  ⟨rfl, rfl, rfl, rfl, rfl⟩

/-- C5: when the stored access token is absent, empty, or the literal string
`"undefined"`, the request interceptor attaches no `Authorization` header
(the header slot of the outgoing config is left untouched). -/
theorem no_auth_header_for_sentinel (store : Storage) (config : Config)
    (h : store.access_token = none ∨ store.access_token = some "" ∨
         store.access_token = some "undefined") :
    (requestInterceptor store config).authorization = config.authorization := by
  rw [requestInterceptor_authorization]
  rcases h with h | h | h <;> simp [h, stripQuotes]

/-- C1: at most one token refresh is in flight at any time: a 401 arriving
while a refresh is in flight is pushed onto the pending queue and starts no
second refresh call, and a same-tick batch of 401 failures starting from the
idle state issues exactly one refresh call, however many requests fail. -/
theorem at_most_one_refresh (s : CoordState) (e : HttpError) (es : List HttpError) :
    (s.isRefreshing = true → e.status = some 401 → e.config.retry = false →
      truthy s.store.refresh_token = true →
      (handleError s e).2 = .queued ∧
      (handleError s e).1.failedQueue =
        s.failedQueue ++ [{ e.config with retry := true }] ∧
      (handleError s e).1.refreshCalls = s.refreshCalls) ∧
    (s.isRefreshing = false → es ≠ [] →
      (∀ e' ∈ es, e'.status = some 401 ∧ e'.config.retry = false) →
      truthy s.store.refresh_token = true →
      (runFails s es).refreshCalls = s.refreshCalls + 1) := by
  constructor
  · intro hr h1 h2 h3
    unfold handleError
    rw [if_pos ⟨h1, h2, h3⟩, if_pos hr]
    exact ⟨rfl, rfl, rfl⟩
  · intro hr hne hall htok
    match es, hne with
    | e1 :: rest, _ =>
      have he1 := hall e1 (List.mem_cons_self e1 rest)
      have hstep : (handleError s e1).1 =
          { s with isRefreshing := true, refreshCalls := s.refreshCalls + 1 } := by
        unfold handleError
        rw [if_pos ⟨he1.1, he1.2, htok⟩, if_neg (by simp [hr])]
      have hfold : runFails s (e1 :: rest) = runFails (handleError s e1).1 rest := rfl
      rw [hfold, hstep]
      exact (runFails_refreshing_preserved rest _ rfl).2

/-- C2: no request is retried more than once: the error handler rejects,
with the state untouched, any error whose request is already marked
`_retry`; and every request it hands to the refresh path or parks on the
queue carries the `_retry` mark, set before any refresh-triggered replay. -/
theorem retry_at_most_once (s : CoordState) (e : HttpError) :
    (e.config.retry = true → handleError s e = (s, .rejected e)) ∧
    (∀ orig, (handleError s e).2 = .refreshStarted orig → orig.retry = true) ∧
    (∃ l, (handleError s e).1.failedQueue = s.failedQueue ++ l ∧
      ∀ c ∈ l, c.retry = true) := by
  refine ⟨?_, ?_, ?_⟩
  · intro hretry
    apply handleError_passthrough
    rintro ⟨-, h2, -⟩
    rw [hretry] at h2
    exact Bool.noConfusion h2
  · intro orig
    by_cases hc : e.status = some 401 ∧ e.config.retry = false ∧
        truthy s.store.refresh_token = true
    · unfold handleError
      rw [if_pos hc]
      by_cases hr : s.isRefreshing
      · rw [if_pos hr]
        intro h
        exact HandlerResult.noConfusion h
      · rw [if_neg hr]
        intro h
        exact (HandlerResult.refreshStarted.inj h) ▸ rfl
    · rw [handleError_passthrough s e hc]
      intro h
      exact HandlerResult.noConfusion h
  · by_cases hc : e.status = some 401 ∧ e.config.retry = false ∧
        truthy s.store.refresh_token = true
    · unfold handleError
      rw [if_pos hc]
      by_cases hr : s.isRefreshing
      · rw [if_pos hr]
        refine ⟨[{ e.config with retry := true }], rfl, ?_⟩
        intro c hm
        rw [List.mem_singleton.mp hm]
      · rw [if_neg hr]
        exact ⟨[], by simp, by simp⟩
    · rw [handleError_passthrough s e hc]
      exact ⟨[], by simp, by simp⟩

/-- C7: an error that is not a recoverable authentication failure — any
status other than 401, a 401 on a request already marked retried, or a 401
with no truthy refresh token in storage — is rejected to the caller
unchanged: the coordinator state (queue, flag, call count, storage) is left
exactly as it was. -/
theorem non_auth_error_passthrough (s : CoordState) (e : HttpError)
    (h : e.status ≠ some 401 ∨ e.config.retry = true ∨
         truthy s.store.refresh_token = false) :
    handleError s e = (s, .rejected e) := by
  apply handleError_passthrough
  rintro ⟨h1, h2, h3⟩
  rcases h with h | h | h
  · exact h h1
  · rw [h2] at h
    exact Bool.noConfusion h
  · rw [h3] at h
    exact Bool.noConfusion h

/-- C6 (amended): with a non-empty, non-sentinel stored access token the
interceptor attaches `Authorization: Bearer <token>` where the token has its
incidental surrounding quotes stripped, and with a truthy active
organization id it attaches `X-Org-ID` equal to that id; the header matches
a token persisted by `AuthProvider.login` exactly whenever that token
contains no character `JSON.stringify` escapes (no quote, backslash, or
control character). -/
theorem attach_credential_headers (store : Storage) (config : Config) :
    (∀ t, store.access_token = some t → stripQuotes t ≠ "" →
      stripQuotes t ≠ "undefined" →
      (requestInterceptor store config).authorization =
        some ("Bearer " ++ stripQuotes t)) ∧
    (∀ o, store.active_org_id = some o → stripQuotes o ≠ "" →
      (requestInterceptor store config).xOrgId = some (stripQuotes o)) ∧
    (∀ st a r, a ≠ "" → a ≠ "undefined" →
      (∀ c ∈ a.data, c ≠ '"' ∧ c ≠ '\\' ∧ ¬c.toNat < 32) →
      (requestInterceptor (loginStore st a r) config).authorization =
        some ("Bearer " ++ a)) := by
  refine ⟨?_, ?_, ?_⟩
  · intro t ht h1 h2
    rw [requestInterceptor_authorization, ht]
    simp [h1, h2]
  · intro o ho h1
    rw [requestInterceptor_xOrgId, ho]
    simp [h1]
  · intro st a r h1 h2 h3
    rw [requestInterceptor_authorization]
    simp only [loginStore, Option.map_some', stripQuotes_jsonStringify_plain a h3]
    simp [h1, h2]

/-- C6, counterexample to the claim as stated: for a token containing a
quote character, login stores its JSON-escaped form, the interceptor strips
only the outer quotes, and the attached header keeps the backslash — it does
not match the token stored by login exactly. -/
theorem login_roundtrip_counterexample :
    (requestInterceptor
        (loginStore
          { access_token := none, refresh_token := none, active_org_id := none }
          "x\"y" "r")
        { authorization := none, xOrgId := none, retry := false }).authorization =
      some "Bearer x\\\"y" ∧
    (requestInterceptor
        (loginStore
          { access_token := none, refresh_token := none, active_org_id := none }
          "x\"y" "r")
        { authorization := none, xOrgId := none, retry := false }).authorization ≠
      some ("Bearer " ++ "x\"y") := by
  refine ⟨?_, ?_⟩ <;> decide

/-- C8: the active organization id has a lifecycle independent of the
credentials: every coordinator step — a failed response handled, or a
refresh settling in success or failure (including the credential teardown) —
leaves the stored `active_org_id` unchanged; the explicit organization
switch `handleSelectOrg` is what sets it. -/
theorem active_org_id_independent (s : CoordState) (ev : Event)
    (store : Storage) (org : Organization) :
    (step s ev).store.active_org_id = s.store.active_org_id ∧
    (handleSelectOrg store org).active_org_id = some org.id := by
  refine ⟨?_, rfl⟩
  cases ev with
  | fail e => exact congrArg Storage.active_org_id (handleError_store s e)
  | settle orig res => cases res with
    | ok tok => rfl
    | error err => rfl

/-- C9: evaluation of the removal handlers on concrete lists: the
`handleDeleteOrg` list update, whose filter parameter shadows the deleted
organization (`org.id !== org.id`), clears the whole displayed list instead
of removing only the matching organization; the intended remove-by-id filter
would keep the other organization; `removeMember` removes exactly the member
with the supplied user id. -/
theorem delete_org_filter_clears_list :
    handleDeleteOrgFilter ⟨"a", "Org A", "org-a", "2024-01-01"⟩
        [⟨"a", "Org A", "org-a", "2024-01-01"⟩,
         ⟨"b", "Org B", "org-b", "2024-01-02"⟩] = [] ∧
    [(⟨"a", "Org A", "org-a", "2024-01-01"⟩ : Organization),
     ⟨"b", "Org B", "org-b", "2024-01-02"⟩].filter (fun o => o.id != "a") =
      [⟨"b", "Org B", "org-b", "2024-01-02"⟩] ∧
    removeMemberFilter "a"
        [⟨"a", "a@example.com", "admin"⟩, ⟨"b", "b@example.com", "member"⟩] =
      [⟨"b", "b@example.com", "member"⟩] := by
  refine ⟨?_, ?_, ?_⟩ <;> decide

/-- C10: every refresh settlement returns the coordinator to the idle state
with an empty pending queue; each queued continuation is consumed exactly
once (the replay and rejection logs grow by exactly the queue length); and
after a settlement a fresh recoverable 401 starts a new refresh rather than
being queued. -/
theorem settle_returns_to_idle (s : CoordState) (orig : Config)
    (res : Except Nat String) :
    (step s (.settle orig res)).isRefreshing = false ∧
    (step s (.settle orig res)).failedQueue = [] ∧
    (∀ token, (settleRefresh s orig (.ok token)).1.replayed.length =
        s.replayed.length + s.failedQueue.length + 1) ∧
    (∀ err, (settleRefresh s orig (.error err)).1.rejectedQueued.length =
        s.rejectedQueued.length + s.failedQueue.length) ∧
    (∀ e : HttpError, e.status = some 401 → e.config.retry = false →
      truthy (step s (.settle orig res)).store.refresh_token = true →
      (handleError (step s (.settle orig res)) e).2 =
        .refreshStarted { e.config with retry := true }) := by
  have hidle : (step s (.settle orig res)).isRefreshing = false := by
    cases res <;> rfl
  refine ⟨hidle, by cases res <;> rfl, ?_, ?_, ?_⟩
  · intro token
    simp [settleRefresh, processQueue, Nat.add_assoc]
  · intro err
    simp [settleRefresh, processQueue]
  · intro e h1 h2 h3
    unfold handleError
    rw [if_pos ⟨h1, h2, h3⟩, if_neg (by simp [hidle])]

/-! ### Concrete fixtures for the witnesses -/

/-- A storage with both tokens present and an organization selected. -/
def sampleStore : Storage :=
  { access_token := some "tokA", refresh_token := some "tokR",
    active_org_id := some "org1" }

/-- A fresh outgoing request config. -/
def freshConfig : Config := { authorization := none, xOrgId := none, retry := false }

/-- A coordinator state with a refresh in flight and an empty queue. -/
def refreshingState : CoordState :=
  { isRefreshing := true, failedQueue := [], store := sampleStore,
    defaultAuthorization := none, locationHref := none,
    refreshCalls := 1, replayed := [], rejectedQueued := [] }

/-- The idle coordinator state. -/
def idleState : CoordState :=
  { refreshingState with isRefreshing := false, refreshCalls := 0 }

/-- A coordinator state with a refresh in flight and one queued request. -/
def queuedState : CoordState :=
  { refreshingState with failedQueue := [{ freshConfig with retry := true }] }

/-- A 401 error on a fresh request. -/
def err401 : HttpError := { status := some 401, config := freshConfig }

/-- A 401 error on a request already marked `_retry`. -/
def err401Retried : HttpError :=
  { status := some 401, config := { freshConfig with retry := true } }

/-! ### Witnesses -/

/-- Witness for C1: during an in-flight refresh a concrete 401 is queued
without a second refresh call, and a two-failure tick from idle issues
exactly one refresh call. -/
theorem at_most_one_refresh_witness :
    ((handleError refreshingState err401).2 = .queued ∧
     (handleError refreshingState err401).1.failedQueue =
       refreshingState.failedQueue ++ [{ err401.config with retry := true }] ∧
     (handleError refreshingState err401).1.refreshCalls =
       refreshingState.refreshCalls) ∧
    (runFails idleState [err401, err401]).refreshCalls =
      idleState.refreshCalls + 1 := by
  constructor
  · exact (at_most_one_refresh refreshingState err401 []).1 rfl rfl rfl (by decide)
  · exact (at_most_one_refresh idleState err401 [err401, err401]).2 rfl
      (by decide) (by decide) (by decide)

/-- Witness for C2: a 401 on an already-retried concrete request is rejected
with the state untouched, and the request handed to a concrete refresh start
is marked `_retry`. -/
theorem retry_at_most_once_witness :
    handleError refreshingState err401Retried =
      (refreshingState, .rejected err401Retried) ∧
    ({ freshConfig with retry := true } : Config).retry = true := by
  refine ⟨(retry_at_most_once refreshingState err401Retried).1 rfl, ?_⟩
  exact (retry_at_most_once idleState err401).2.1
    { freshConfig with retry := true } (by decide)

/-- Witness for C5: with the literal sentinel `"undefined"` stored, no
`Authorization` header is attached to a fresh request. -/
theorem no_auth_header_for_sentinel_witness :
    (requestInterceptor
        { access_token := some "undefined", refresh_token := none,
          active_org_id := none }
        freshConfig).authorization = freshConfig.authorization :=
  no_auth_header_for_sentinel _ freshConfig (Or.inr (Or.inr rfl))

/-- Witness for C6: concrete header attachment for a stored token, a stored
organization id, and a token persisted by login. -/
theorem attach_credential_headers_witness :
    (requestInterceptor sampleStore freshConfig).authorization =
      some ("Bearer " ++ stripQuotes "tokA") ∧
    (requestInterceptor sampleStore freshConfig).xOrgId =
      some (stripQuotes "org1") ∧
    (requestInterceptor (loginStore sampleStore "tokNew" "tokR2")
        freshConfig).authorization = some ("Bearer " ++ "tokNew") := by
  refine ⟨?_, ?_, ?_⟩
  · exact (attach_credential_headers sampleStore freshConfig).1 "tokA" rfl
      (by decide) (by decide)
  · exact (attach_credential_headers sampleStore freshConfig).2.1 "org1" rfl
      (by decide)
  · exact (attach_credential_headers (loginStore sampleStore "tokNew" "tokR2")
      freshConfig).2.2 sampleStore "tokNew" "tokR2" (by decide) (by decide) (by decide)

/-- Witness for C7: a concrete 500 error passes through with the coordinator
state untouched. -/
theorem non_auth_error_passthrough_witness :
    handleError idleState { status := some 500, config := freshConfig } =
      (idleState, .rejected { status := some 500, config := freshConfig }) :=
  non_auth_error_passthrough idleState _ (Or.inl (by decide))

/-- Witness for C10: a concrete successful settlement of a one-element queue
empties the queue, and a fresh 401 right after it starts a new refresh. -/
theorem settle_returns_to_idle_witness :
    (step queuedState
        (.settle { freshConfig with retry := true } (.ok "tokNew"))).failedQueue = [] ∧
    (handleError
        (step queuedState (.settle { freshConfig with retry := true } (.ok "tokNew")))
        err401).2 = .refreshStarted { err401.config with retry := true } := by
  refine ⟨(settle_returns_to_idle queuedState
    { freshConfig with retry := true } (.ok "tokNew")).2.1, ?_⟩
  exact (settle_returns_to_idle queuedState
    { freshConfig with retry := true } (.ok "tokNew")).2.2.2.2 err401 rfl rfl (by decide)

end AutoglueUI
